import Mathlib

/-!
Verification of the Data Integration and Caching layer of the HVAC
assistant repository (scripts/data_integration.py and
scripts/thermia_integration.py), as described by the specification.

Modelling conventions:
* Python floats are modelled as rationals; every numeric constant in the
  source (temperatures, scores, penalties) is exactly representable.
* Python `Optional[float]` fields become `Option ℚ`; the pervasive Python
  truthiness tests `if x:` on such fields are modelled by `truthyQ`
  (false for `None` and for `0.0`), and on optional strings by
  `truthyStr` (false for `None` and for the empty string).
* `datetime` values are modelled at hour granularity as natural numbers
  (hours since an arbitrary epoch); `t.hour` becomes `t % 24` and
  `timedelta(hours=1)` becomes `+ 1`, which is exact for the
  hour-stepping loop in `_get_mock_historical_data`.
* The SQLite tables of the Persistent Store are modelled as lists of
  rows.  `hvac_systems` has `id TEXT PRIMARY KEY`, so
  `INSERT OR REPLACE` there replaces the row with the same id.
  `historical_data` has only an AUTOINCREMENT integer primary key and no
  uniqueness constraint over (system_id, register_name, timestamp), so
  `INSERT OR REPLACE` there never meets a conflict and behaves as a
  plain append of fresh rows.
* Outcomes of the external Thermia vendor API (the Live Gateway) and of
  the SQLite writes are inputs of the model (`GatewayEnv`): an
  `Except` value stands for "returned normally" versus "raised", and a
  boolean stands for whether a cache write succeeds.  The functions
  `_cache_system_data` and `_cache_historical_data` swallow their own
  exceptions internally (try/except around the whole body), which the
  model reflects by returning the database unchanged on a failed write
  and never propagating an error.
* Wall-clock timestamp fields (`datetime.now()`/`CURRENT_TIMESTAMP`)
  are omitted from results: no verified property mentions them.
-/

/-- Python truthiness of an `Optional[float]`: `None` and `0.0` are falsy. -/
def truthyQ : Option ℚ → Bool
  | none => false
  | some x => decide (x ≠ 0)

/-- Python truthiness of an `Optional[str]`: `None` and the empty string are falsy. -/
def truthyStr : Option String → Bool
  | none => false
  | some s => decide (s ≠ "")

/-- Check whether the first character list is an initial segment of the second. -/
def leadsWith : List Char → List Char → Bool
  | [], _ => true
  | _ :: _, [] => false
  | a :: as, b :: bs => a == b && leadsWith as bs

/-- Check whether `needle` occurs as a contiguous run inside `hay`. -/
def hasSub (needle : List Char) : List Char → Bool
  | [] => needle.isEmpty
  | b :: bs => leadsWith needle (b :: bs) || hasSub needle bs

/-- Python `needle in hay` on strings. -/
def strContains (hay needle : String) : Bool :=
  hasSub needle.toList hay.toList

/-- Python `abs` on rationals, written so that it evaluates by cases on
the order rather than through the lattice structure. -/
def absQ (x : ℚ) : ℚ := if x < 0 then -x else x

namespace DataIntegration

/-- One point of historical data as produced by the Gateway: the dict
`\x7b"time": t, "value": v\x7d` built by `_get_mock_historical_data` (and the
shape returned by `get_historical_data_for_register`). -/
structure HistPoint where
  time : ℕ
  value : ℚ
deriving DecidableEq

/-- A row of the `historical_data` SQLite table (the AUTOINCREMENT id
column is kept implicit: it is fresh for every insert and never read). -/
structure HistRow where
  system_id : String
  register_name : String
  value : ℚ
  timestamp : ℕ
deriving DecidableEq

/-- The `HVACSystemData` dataclass of scripts/data_integration.py. -/
structure HVACSystemData where
  name : String
  id : String
  model : String
  is_online : Bool
  indoor_temperature : Option ℚ
  outdoor_temperature : Option ℚ
  hot_water_temperature : Option ℚ
  heat_temperature : Option ℚ
  supply_line_temperature : Option ℚ
  return_line_temperature : Option ℚ
  operation_mode : String
  active_alarms : List String
  compressor_operational_time : Option ℚ
  last_online : Option String
  heat_min_temperature_value : Option ℚ
  heat_max_temperature_value : Option ℚ
  heat_temperature_step : Option ℚ
  available_operation_modes : List String
  running_operational_statuses : List String
  historical_data : Option (List HistPoint)
deriving DecidableEq

/-- The mutable state of a `DataIntegrationManager`: the mode flags set
in `__init__`/`_initialize_thermia_connection` and the two relevant
tables of the SQLite database. -/
structure DIState where
  use_mock_data : Bool
  thermia : Bool
  db_systems : List HVACSystemData
  db_historical : List HistRow
deriving DecidableEq

/-- Outcomes of the external collaborators during one Manager call: what
the vendor API does when invoked (`Except.error` models a raised
exception) and whether each SQLite cache write succeeds. -/
structure GatewayEnv where
  fetch_heat_pumps : Except String (List HVACSystemData)
  fetch_historical : Except String (List HistPoint)
  cache_ok : Bool
  hist_cache_ok : Bool

/-- The first entry of the list returned by `_get_mock_system_data`. -/
def mock_system_1 : HVACSystemData :=
  { name := "Thermia Diplomat Duo"
    id := "mock-system-1"
    model := "Diplomat Duo"
    is_online := true
    indoor_temperature := some 22.5
    outdoor_temperature := some (-5.2)
    hot_water_temperature := some 45.0
    heat_temperature := some 21.0
    supply_line_temperature := some 35.0
    return_line_temperature := some 30.0
    operation_mode := "Heating"
    active_alarms := []
    compressor_operational_time := some 1250.5
    last_online := some "2024-01-15T10:30:00Z"
    heat_min_temperature_value := some 15.0
    heat_max_temperature_value := some 30.0
    heat_temperature_step := some 0.5
    available_operation_modes := ["Heating", "Cooling", "Auto"]
    running_operational_statuses := ["Compressor Running", "Circulation Pump Active"]
    historical_data := none }

/-- The second entry of the list returned by `_get_mock_system_data`. -/
def mock_system_2 : HVACSystemData :=
  { name := "Thermia Calibra"
    id := "mock-system-2"
    model := "Calibra"
    is_online := true
    indoor_temperature := some 23.0
    outdoor_temperature := some (-3.8)
    hot_water_temperature := some 48.0
    heat_temperature := some 22.0
    supply_line_temperature := some 38.0
    return_line_temperature := some 32.0
    operation_mode := "Auto"
    active_alarms := ["Low refrigerant pressure"]
    compressor_operational_time := some 890.2
    last_online := some "2024-01-15T10:25:00Z"
    heat_min_temperature_value := some 16.0
    heat_max_temperature_value := some 28.0
    heat_temperature_step := some 0.5
    available_operation_modes := ["Heating", "Cooling", "Auto", "DHW"]
    running_operational_statuses := ["Compressor Running", "DHW Pump Active"]
    historical_data := none }

/-- The fixed two-element list returned by `_get_mock_system_data`. -/
def mock_system_data : List HVACSystemData :=
  [mock_system_1, mock_system_2]

/-- The mock-path filter of `get_live_system_data`: `if system_id:
systems = [s for s in systems if s.id == system_id]` (no filtering when
the argument is `None` or the empty string, by Python truthiness). -/
def filter_mock (systems : List HVACSystemData) (system_id : Option String) :
    List HVACSystemData :=
  if truthyStr system_id then
    systems.filter (fun s => s.id == system_id.getD "")
  else systems

/-- The live-path filter of `get_live_system_data`: a pump is kept when
`system_id is None or system_data.id == system_id`. -/
def liveKeep (system_id : Option String) (s : HVACSystemData) : Bool :=
  match system_id with
  | none => true
  | some x => s.id == x

/-- One `INSERT OR REPLACE INTO hvac_systems` of `_cache_system_data`:
`id` is the primary key, so the existing row with the same id is
deleted and the fresh row inserted. -/
def upsert_snapshot (db : List HVACSystemData) (s : HVACSystemData) :
    List HVACSystemData :=
  db.filter (fun r => !(r.id == s.id)) ++ [s]

/-- The `_cache_system_data` method: upserts every snapshot of the batch
into the `hvac_systems` table.  Its body is wrapped in try/except, so a
storage failure is logged and swallowed (modelled by returning the
table unchanged) and never propagates to the caller. -/
def cache_system_data (cache_ok : Bool) (db : List HVACSystemData)
    (systems_data : List HVACSystemData) : List HVACSystemData :=
  if cache_ok then systems_data.foldl upsert_snapshot db else db

/-- The `get_live_system_data` method (the `get_snapshot` operation of
the spec).  Returns the served list together with the Manager state
after the call.  Mock mode (or a missing Thermia handle) serves
filtered mock data; live mode serves the fetched pumps filtered by
`liveKeep`; a raising live fetch falls back to filtered mock data.  In
every branch the served list is passed to `_cache_system_data` before
being returned. -/
def get_live_system_data (st : DIState) (env : GatewayEnv)
    (system_id : Option String) : List HVACSystemData × DIState :=
  if st.use_mock_data || !st.thermia then
    let systems_data := filter_mock mock_system_data system_id
    (systems_data,
      { st with db_systems := cache_system_data env.cache_ok st.db_systems systems_data })
  else
    match env.fetch_heat_pumps with
    | .ok heat_pumps =>
        let systems_data := heat_pumps.filter (liveKeep system_id)
        (systems_data,
          { st with db_systems := cache_system_data env.cache_ok st.db_systems systems_data })
    | .error _ =>
        let systems_data := filter_mock mock_system_data system_id
        (systems_data,
          { st with db_systems := cache_system_data env.cache_ok st.db_systems systems_data })

/-- The `get_cached_system_data` method: a pure read of the
`hvac_systems` table, with the same truthiness-guarded id filter
(`WHERE id = ?` only when `system_id` is truthy).  The source orders
the unfiltered read by `updated_at DESC`; row order is not part of any
verified property and the table is kept in insertion order here. -/
def get_cached_system_data (st : DIState) (system_id : Option String) :
    List HVACSystemData :=
  if truthyStr system_id then
    st.db_systems.filter (fun s => s.id == system_id.getD "")
  else st.db_systems

/-- The value formula of `_get_mock_historical_data` for one timestamp:
a diurnal cycle keyed by hour-of-day and the register-name category. -/
def mock_historical_value (register_name : String) (t : ℕ) : ℚ :=
  let hour : ℚ := ((t % 24 : ℕ) : ℚ)
  if strContains register_name.toLower "temperature" then 20 + 5 * (hour / 24)
  else if strContains register_name.toLower "power" then 2000 + 500 * (hour / 24)
  else 100 + hour * 10

/-- The `_get_mock_historical_data` method: one point per hour from
`start_time` while `current_time <= end_time`.  Note the `system_id`
argument is accepted but never inspected by the source. -/
def get_mock_historical_data (_system_id register_name : String)
    (start_time end_time : ℕ) : List HistPoint :=
  (List.range (end_time + 1 - start_time)).map
    (fun i => ⟨start_time + i, mock_historical_value register_name (start_time + i)⟩)

/-- The `_cache_historical_data` method.  The `historical_data` table
has only the AUTOINCREMENT `id` primary key and no uniqueness
constraint over (system_id, register_name, timestamp), so the
`INSERT OR REPLACE` of the source never meets a conflict: every record
is appended as a fresh row.  The body is wrapped in try/except, so a
storage failure is swallowed (table returned unchanged). -/
def cache_historical_data (hist_cache_ok : Bool) (db : List HistRow)
    (system_id register_name : String) (data : List HistPoint) : List HistRow :=
  if hist_cache_ok then
    db ++ data.map (fun p => ⟨system_id, register_name, p.value, p.time⟩)
  else db

/-- The `get_historical_data` method (the `get_historical` operation of
the spec).  Mock mode generates and caches mock points; live mode looks
the pump up in a fresh fetch, returns an empty list without caching
when the id is unknown, and otherwise serves (and caches) the vendor
data; any raise on the live path falls back to generated-and-cached
mock points. -/
def get_historical_data (st : DIState) (env : GatewayEnv)
    (system_id register_name : String) (start_time end_time : ℕ) :
    List HistPoint × DIState :=
  if st.use_mock_data || !st.thermia then
    let data := get_mock_historical_data system_id register_name start_time end_time
    (data,
      { st with db_historical :=
          cache_historical_data env.hist_cache_ok st.db_historical system_id register_name data })
  else
    match env.fetch_heat_pumps with
    | .error _ =>
        let data := get_mock_historical_data system_id register_name start_time end_time
        (data,
          { st with db_historical :=
              cache_historical_data env.hist_cache_ok st.db_historical system_id register_name data })
    | .ok heat_pumps =>
        if heat_pumps.any (fun hp => hp.id == system_id) then
          match env.fetch_historical with
          | .ok data =>
              (data,
                { st with db_historical :=
                    cache_historical_data env.hist_cache_ok st.db_historical system_id register_name data })
          | .error _ =>
              let data := get_mock_historical_data system_id register_name start_time end_time
              (data,
                { st with db_historical :=
                    cache_historical_data env.hist_cache_ok st.db_historical system_id register_name data })
        else ([], st)

/-- The diagnosis dictionary built by `get_system_diagnosis` (the
wall-clock `timestamp` entry is omitted). -/
structure Diagnosis where
  system_id : String
  status : String
  issues : List String
  recommendations : List String
  efficiency_score : ℚ
deriving DecidableEq

/-- Guard of the alarm check in `get_system_diagnosis`: Python
truthiness of the `active_alarms` list. -/
def alarms_present (system : HVACSystemData) : Bool :=
  !system.active_alarms.isEmpty

/-- Guard of the setpoint check in `get_system_diagnosis`: both
temperatures truthy and the absolute deviation above 3.  The `getD 0`
defaults are only reachable under the truthiness guard, where the
fields are `some`. -/
def setpoint_deviation (system : HVACSystemData) : Bool :=
  truthyQ system.indoor_temperature && truthyQ system.heat_temperature &&
    decide (absQ (system.indoor_temperature.getD 0 - system.heat_temperature.getD 0) > 3)

/-- Guard of the operational-status check in `get_system_diagnosis`:
Python truthiness of `running_operational_statuses`. -/
def statuses_present (system : HVACSystemData) : Bool :=
  !system.running_operational_statuses.isEmpty

/-- Membership test `"Compressor Running" in running_operational_statuses`. -/
def compressor_running (system : HVACSystemData) : Bool :=
  system.running_operational_statuses.contains "Compressor Running"

/-- The scoring body of `get_system_diagnosis` over the first fetched
snapshot: start from status GOOD and score 85.0; alarms set status POOR,
extend issues and subtract 20; a setpoint deviation beyond 3 subtracts
10; a non-empty status list without "Compressor Running" subtracts 15;
finally the status is overwritten from the issue count (more than 2
issues POOR, at least one issue FAIR). -/
def diagnose_snapshot (system_id : String) (system : HVACSystemData) : Diagnosis :=
  let d0 : Diagnosis := ⟨system_id, "GOOD", [], [], 85.0⟩
  let d1 :=
    if alarms_present system then
      { d0 with status := "POOR", issues := d0.issues ++ system.active_alarms,
                efficiency_score := d0.efficiency_score - 20 }
    else d0
  let d2 :=
    if setpoint_deviation system then
      { d1 with issues := d1.issues ++ ["Temperature setpoint deviation"],
                recommendations := d1.recommendations ++
                  ["Adjust temperature setpoint for better efficiency"],
                efficiency_score := d1.efficiency_score - 10 }
    else d1
  let d3 :=
    if statuses_present system then
      if compressor_running system then
        { d2 with recommendations := d2.recommendations ++ ["System operating normally"] }
      else
        { d2 with issues := d2.issues ++ ["Compressor not running"],
                  efficiency_score := d2.efficiency_score - 15 }
    else d2
  if d3.issues.length > 2 then { d3 with status := "POOR" }
  else if d3.issues.length > 0 then { d3 with status := "FAIR" }
  else d3

/-- The `get_system_diagnosis` method: a fresh `get_live_system_data`
fetch (with its cache side effect), then either the error dictionary
`\x7b"error": "System not found"\x7d` or the scored diagnosis of the first
returned snapshot. -/
def get_system_diagnosis (st : DIState) (env : GatewayEnv) (system_id : String) :
    Except String Diagnosis × DIState :=
  let r := get_live_system_data st env (some system_id)
  (match r.1 with
   | [] => .error "System not found"
   | system :: _ => .ok (diagnose_snapshot system_id system), r.2)

/-- The rule body of `get_optimization_suggestions` over one snapshot,
in source order: setpoint delta, mild-weather mode, compressor hours,
indoor/outdoor differential. -/
def suggestions_for (system : HVACSystemData) : List String :=
  let s1 :=
    match system.indoor_temperature, system.heat_temperature with
    | some i, some h =>
        if i ≠ 0 ∧ h ≠ 0 then
          if i - h > 2 then
            ["Consider lowering the heat temperature setpoint for better efficiency"]
          else if i - h < -1 then
            ["Consider raising the heat temperature setpoint for comfort"]
          else []
        else []
    | _, _ => []
  let s2 :=
    if system.operation_mode == "Heating" &&
        (match system.outdoor_temperature with
         | some o => decide (o ≠ 0) && decide (o > 10)
         | none => false) then
      ["Consider switching to Auto mode for better efficiency in mild weather"]
    else []
  let s3 :=
    match system.compressor_operational_time with
    | some c =>
        if c ≠ 0 ∧ c > 1000 then
          ["Schedule preventive maintenance - compressor has high operational hours"]
        else []
    | none => []
  let s4 :=
    match system.indoor_temperature, system.outdoor_temperature with
    | some i, some o =>
        if i ≠ 0 ∧ o ≠ 0 ∧ i - o > 25 then
          ["Large temperature difference detected - consider insulation improvements"]
        else []
    | _, _ => []
  s1 ++ s2 ++ s3 ++ s4

/-- The `get_optimization_suggestions` method: a fresh
`get_live_system_data` fetch (with its cache side effect), then either
the not-found message, the fired rules, or the single
operating-optimally message when no rule fired. -/
def get_optimization_suggestions (st : DIState) (env : GatewayEnv)
    (system_id : String) : List String × DIState :=
  let r := get_live_system_data st env (some system_id)
  (match r.1 with
   | [] => ["System not found"]
   | system :: _ =>
      let suggestions := suggestions_for system
      if suggestions.isEmpty then ["System is operating optimally"] else suggestions,
   r.2)

end DataIntegration

namespace Thermia

/-- The `HVACSystemData` dataclass of scripts/thermia_integration.py
(the smaller, fourteen-field variant). -/
structure SystemData where
  name : String
  id : String
  model : String
  is_online : Bool
  indoor_temperature : Option ℚ
  outdoor_temperature : Option ℚ
  hot_water_temperature : Option ℚ
  heat_temperature : Option ℚ
  supply_line_temperature : Option ℚ
  return_line_temperature : Option ℚ
  operation_mode : String
  active_alarms : List String
  compressor_operational_time : Option ℚ
  last_online : Option String
deriving DecidableEq

/-- The `DiagnosticResult` dataclass of scripts/thermia_integration.py
(the wall-clock `timestamp` field is omitted). -/
structure DiagnosticResult where
  system_id : String
  status : String
  issues : List String
  recommendations : List String
  efficiency_score : Option ℚ
deriving DecidableEq

/-- The first entry of the list returned by `_get_mock_heat_pumps`. -/
def mock_pump_1 : SystemData :=
  { name := "Test Heat Pump 1"
    id := "mock-001"
    model := "Thermia Diplomat Duo"
    is_online := true
    indoor_temperature := some 22.5
    outdoor_temperature := some 5.2
    hot_water_temperature := some 45.0
    heat_temperature := some 21.0
    supply_line_temperature := some 35.0
    return_line_temperature := some 30.0
    operation_mode := "Heating"
    active_alarms := []
    compressor_operational_time := some 1250.5
    last_online := some "2024-01-15T10:30:00Z" }

/-- The second entry of the list returned by `_get_mock_heat_pumps`. -/
def mock_pump_2 : SystemData :=
  { name := "Test Heat Pump 2"
    id := "mock-002"
    model := "Thermia Calibra"
    is_online := false
    indoor_temperature := none
    outdoor_temperature := none
    hot_water_temperature := none
    heat_temperature := some 20.0
    supply_line_temperature := none
    return_line_temperature := none
    operation_mode := "Standby"
    active_alarms := ["Communication Error"]
    compressor_operational_time := some 890.2
    last_online := some "2024-01-15T08:15:00Z" }

/-- The fixed two-element list returned by `_get_mock_heat_pumps`. -/
def mock_heat_pumps : List SystemData :=
  [mock_pump_1, mock_pump_2]

/-- The `fetch_heat_pumps` method of `ThermiaHVACIntegration`: mock data
when not connected, the converted vendor list on a successful fetch, and
mock data again when the vendor call raises. -/
def fetch_heat_pumps (connected : Bool) (live : Except String (List SystemData)) :
    List SystemData :=
  if !connected then mock_heat_pumps
  else
    match live with
    | .ok heat_pumps => heat_pumps
    | .error _ => mock_heat_pumps

/-- The `get_system_by_id` method: first fetched system whose id
matches, `None` otherwise. -/
def get_system_by_id (connected : Bool) (live : Except String (List SystemData))
    (system_id : String) : Option SystemData :=
  (fetch_heat_pumps connected live).find? (fun s => s.id == system_id)

/-- Derivation of the overall status from the final efficiency score in
`diagnose_system`: the fixed 90/70/50 thresholds. -/
def statusOfScore (score : ℚ) : String :=
  if score ≥ 90 then "EXCELLENT"
  else if score ≥ 70 then "GOOD"
  else if score ≥ 50 then "FAIR"
  else "POOR"

/-- Guard of the temperature-differential check in `diagnose_system`:
both temperatures truthy and their difference below 10.  The `getD 0`
defaults are only reachable under the truthiness guard. -/
def low_temp_diff (system : SystemData) : Bool :=
  truthyQ system.indoor_temperature && truthyQ system.outdoor_temperature &&
    decide (system.indoor_temperature.getD 0 - system.outdoor_temperature.getD 0 < 10)

/-- Guard of the low-hot-water branch in `diagnose_system`: truthy and
below 40. -/
def hot_water_low (system : SystemData) : Bool :=
  truthyQ system.hot_water_temperature &&
    decide (system.hot_water_temperature.getD 0 < 40)

/-- Guard of the high-hot-water branch in `diagnose_system`: truthy,
not below 40 (the elif), and above 60. -/
def hot_water_high (system : SystemData) : Bool :=
  truthyQ system.hot_water_temperature &&
    !decide (system.hot_water_temperature.getD 0 < 40) &&
    decide (system.hot_water_temperature.getD 0 > 60)

/-- The found-system body of `diagnose_system`: start from
`efficiency_score = 100.0`; offline subtracts 30; a low indoor/outdoor
differential subtracts 15; active alarms are copied into issues and
subtract 25; a truthy hot-water temperature below 40 subtracts 10,
above 60 subtracts 5; the status is derived from the final score by
`statusOfScore`. -/
def diagnose_found (system_id : String) (system : SystemData) : DiagnosticResult :=
  let issues0 : List String := []
  let recs0 : List String := []
  let score0 : ℚ := 100.0
  let issues1 := if !system.is_online then issues0 ++ ["System is offline"] else issues0
  let recs1 :=
    if !system.is_online then recs0 ++ ["Check network connection and power supply"]
    else recs0
  let score1 := if !system.is_online then score0 - 30 else score0
  let issues2 :=
    if low_temp_diff system then issues1 ++ ["Low temperature differential"] else issues1
  let recs2 :=
    if low_temp_diff system then recs1 ++ ["Check system efficiency and insulation"]
    else recs1
  let score2 := if low_temp_diff system then score1 - 15 else score1
  let issues3 :=
    if !system.active_alarms.isEmpty then issues2 ++ system.active_alarms else issues2
  let recs3 :=
    if !system.active_alarms.isEmpty then recs2 ++ ["Address active alarms immediately"]
    else recs2
  let score3 := if !system.active_alarms.isEmpty then score2 - 25 else score2
  let issues4 :=
    if hot_water_low system then issues3 ++ ["Low hot water temperature"]
    else if hot_water_high system then issues3 ++ ["High hot water temperature"]
    else issues3
  let recs4 :=
    if hot_water_low system then recs3 ++ ["Check hot water settings and efficiency"]
    else if hot_water_high system then
      recs3 ++ ["Consider lowering hot water temperature for efficiency"]
    else recs3
  let score4 :=
    if hot_water_low system then score3 - 10
    else if hot_water_high system then score3 - 5
    else score3
  { system_id := system_id
    status := statusOfScore score4
    issues := issues4
    recommendations := recs4
    efficiency_score := some score4 }

/-- The `diagnose_system` method: the not-found sentinel result, or
`diagnose_found` on the system returned by `get_system_by_id`. -/
def diagnose_system (connected : Bool) (live : Except String (List SystemData))
    (system_id : String) : DiagnosticResult :=
  match get_system_by_id connected live system_id with
  | none =>
      { system_id := system_id
        status := "ERROR"
        issues := ["System not found"]
        recommendations := ["Check system ID"]
        efficiency_score := none }
  | some system => diagnose_found system_id system

/-- The four unconditional closing tips of
`ThermiaHVACIntegration.get_optimization_suggestions`. -/
def general_tips : List String :=
  [ "Ensure proper insulation around the building",
    "Check and clean air filters regularly",
    "Monitor system performance trends",
    "Consider smart thermostat integration" ]

/-- The found-system body of
`ThermiaHVACIntegration.get_optimization_suggestions`: three optional
rules, then the four general tips are always appended. -/
def suggestions_found (system : SystemData) : List String :=
  let s1 :=
    match system.indoor_temperature, system.heat_temperature with
    | some i, some h =>
        if i ≠ 0 ∧ h ≠ 0 ∧ i > h + 2 then
          ["Consider lowering indoor temperature for energy savings"]
        else []
    | _, _ => []
  let s2 :=
    match system.hot_water_temperature with
    | some w =>
        if w ≠ 0 ∧ w > 55 then
          ["Consider lowering hot water temperature to 45-50°C for efficiency"]
        else []
    | none => []
  let s3 :=
    match system.compressor_operational_time with
    | some c =>
        if c ≠ 0 ∧ c > 1000 then
          ["Schedule maintenance check due to high operational hours"]
        else []
    | none => []
  s1 ++ s2 ++ s3 ++ general_tips

/-- The `get_optimization_suggestions` method of
`ThermiaHVACIntegration`: the not-found message, or the rule output
(which always ends with the four general tips). -/
def get_optimization_suggestions (connected : Bool)
    (live : Except String (List SystemData)) (system_id : String) : List String :=
  match get_system_by_id connected live system_id with
  | none => ["System not found"]
  | some system => suggestions_found system

end Thermia

namespace DataIntegration

/-- The list that `get_live_system_data` filters in the branch actually
taken: mock data in mock mode or after a live raise, the fetched pumps
otherwise. -/
def fetch_pool (st : DIState) (env : GatewayEnv) : List HVACSystemData :=
  if st.use_mock_data || !st.thermia then mock_system_data
  else
    match env.fetch_heat_pumps with
    | .ok heat_pumps => heat_pumps
    | .error _ => mock_system_data

/-- A Manager state in synthetic (mock) mode with empty tables, as
produced by `__init__` with `USE_MOCK_DATA=true` on a fresh database. -/
def st_mock : DIState := ⟨true, false, [], []⟩

/-- A Manager state in live mode (mock flag off, Thermia handle
present) with empty tables. -/
def st_live : DIState := ⟨false, true, [], []⟩

/-- An environment whose vendor calls return empty data and whose cache
writes succeed. -/
def env_ok : GatewayEnv := ⟨.ok [], .ok [], true, true⟩

/-- An environment whose live fetch raises and whose cache writes
succeed. -/
def env_err : GatewayEnv := ⟨.error "network unreachable", .ok [], true, true⟩

/-- A concrete live snapshot with a 4-degree setpoint deviation, no
alarms and a running compressor. -/
def dev_snapshot : HVACSystemData :=
  { name := "Dev Pump"
    id := "dev-1"
    model := "Diplomat"
    is_online := true
    indoor_temperature := some 25.0
    outdoor_temperature := some 2.0
    hot_water_temperature := some 45.0
    heat_temperature := some 21.0
    supply_line_temperature := none
    return_line_temperature := none
    operation_mode := "Auto"
    active_alarms := []
    compressor_operational_time := some 500.0
    last_online := none
    heat_min_temperature_value := none
    heat_max_temperature_value := none
    heat_temperature_step := none
    available_operation_modes := ["Auto"]
    running_operational_statuses := ["Compressor Running"]
    historical_data := none }

/-- A concrete live snapshot that fires none of the optimization
rules: small setpoint delta, Auto mode, low compressor hours, mild
indoor/outdoor differential. -/
def calm_snapshot : HVACSystemData :=
  { name := "Calm Pump"
    id := "calm-1"
    model := "Calibra"
    is_online := true
    indoor_temperature := some 22.0
    outdoor_temperature := some 15.0
    hot_water_temperature := some 45.0
    heat_temperature := some 21.0
    supply_line_temperature := none
    return_line_temperature := none
    operation_mode := "Auto"
    active_alarms := []
    compressor_operational_time := some 500.0
    last_online := none
    heat_min_temperature_value := none
    heat_max_temperature_value := none
    heat_temperature_step := none
    available_operation_modes := ["Auto"]
    running_operational_statuses := ["Compressor Running"]
    historical_data := none }

/-- An environment whose live fetch serves exactly `dev_snapshot`. -/
def env_dev : GatewayEnv := ⟨.ok [dev_snapshot], .ok [], true, true⟩

/-- An environment whose live fetch serves exactly `calm_snapshot`. -/
def env_calm : GatewayEnv := ⟨.ok [calm_snapshot], .ok [], true, true⟩

end DataIntegration

/-!
Helper lemmas about the embedded operations.
-/

namespace DataIntegration

/-- In a list of snapshots with pairwise distinct ids, at most one
snapshot passes an id filter. -/
theorem filter_id_length_le_one (l : List HVACSystemData) (x : String)
    (h : (l.map (fun s => s.id)).Nodup) :
    (l.filter (fun s => s.id == x)).length ≤ 1 := by
  induction l with
  | nil => simp
  | cons a t ih =>
      simp only [List.map_cons, List.nodup_cons, List.mem_map] at h
      obtain ⟨hna, hnd⟩ := h
      by_cases hax : a.id = x
      · have ht : t.filter (fun s => s.id == x) = [] := by
          rw [List.filter_eq_nil_iff]
          intro s hs
          simp only [beq_iff_eq]
          intro hsx
          exact hna ⟨s, hs, hsx.trans hax.symm⟩
        simp [List.filter_cons, hax, ht]
      · simp only [List.filter_cons, beq_iff_eq, hax, if_false]
        exact ih hnd

/-- Every snapshot surviving an id filter carries the filtered id. -/
theorem mem_filter_id (l : List HVACSystemData) (x : String) (s : HVACSystemData)
    (hs : s ∈ l.filter (fun r => r.id == x)) : s.id = x := by
  have h := List.mem_filter.mp hs
  simpa using h.2

/-- A stored snapshot whose id is hit by none of the upserts of a batch
survives the whole batch. -/
theorem mem_foldl_upsert_of_fresh (rest : List HVACSystemData)
    (db : List HVACSystemData) (s : HVACSystemData)
    (hs : s ∈ db) (hn : ∀ r ∈ rest, r.id ≠ s.id) :
    s ∈ rest.foldl upsert_snapshot db := by
  induction rest generalizing db with
  | nil => exact hs
  | cons r t ih =>
      simp only [List.foldl_cons]
      apply ih
      · unfold upsert_snapshot
        apply List.mem_append_left
        refine List.mem_filter.mpr ⟨hs, ?_⟩
        simp only [Bool.not_eq_true', beq_eq_false_iff_ne, ne_eq]
        intro hcontra
        exact hn r (by simp) (by rw [hcontra])
      · intro r2 hr2
        exact hn r2 (by simp [hr2])

/-- After upserting a batch with pairwise distinct ids, every snapshot
of the batch is present in the store. -/
theorem mem_foldl_upsert_self (l : List HVACSystemData)
    (db : List HVACSystemData) (s : HVACSystemData)
    (hs : s ∈ l) (hnd : (l.map (fun r => r.id)).Nodup) :
    s ∈ l.foldl upsert_snapshot db := by
  induction l generalizing db with
  | nil => cases hs
  | cons a t ih =>
      simp only [List.map_cons, List.nodup_cons, List.mem_map] at hnd
      obtain ⟨hna, hnd⟩ := hnd
      simp only [List.foldl_cons]
      rcases List.mem_cons.mp hs with rfl | hst
      · apply mem_foldl_upsert_of_fresh
        · unfold upsert_snapshot
          exact List.mem_append_right _ (by simp)
        · intro r hr hcontra
          exact hna ⟨r, hr, hcontra⟩
      · exact ih _ hst hnd

/-- The new snapshot table after `get_live_system_data` is always the
cache-write of the returned list over the old table. -/
theorem get_live_system_data_db (st : DIState) (env : GatewayEnv)
    (system_id : Option String) :
    (get_live_system_data st env system_id).2.db_systems =
      cache_system_data env.cache_ok st.db_systems
        (get_live_system_data st env system_id).1 := by
  unfold get_live_system_data
  split
  · rfl
  · split <;> rfl

/-- For a non-empty id filter, `get_live_system_data` returns exactly
the pool of the taken branch filtered by that id. -/
theorem get_live_system_data_fst_filter (st : DIState) (env : GatewayEnv)
    (x : String) (hx : x ≠ "") :
    (get_live_system_data st env (some x)).1 =
      (fetch_pool st env).filter (fun s => s.id == x) := by
  have htr : truthyStr (some x) = true := by simp [truthyStr, hx]
  unfold get_live_system_data fetch_pool filter_mock
  rw [htr]
  split
  · simp
  · split
    · rfl
    · simp

/-- The score computed by `get_system_diagnosis` in closed form: 85
minus the alarm, setpoint and compressor penalties. -/
theorem diagnose_snapshot_score (system_id : String) (s : HVACSystemData) :
    (diagnose_snapshot system_id s).efficiency_score =
      85 - (if alarms_present s then 20 else 0)
        - (if setpoint_deviation s then 10 else 0)
        - (if statuses_present s && !compressor_running s then 15 else 0) := by
  unfold diagnose_snapshot
  by_cases h1 : alarms_present s <;> by_cases h2 : setpoint_deviation s <;>
    by_cases h3 : statuses_present s <;> by_cases h4 : compressor_running s <;>
      simp [h1, h2, h3, h4, apply_ite Diagnosis.efficiency_score] <;> norm_num

end DataIntegration

namespace Thermia

/-- The score computed by `diagnose_found` in closed form: 100 minus
the offline, differential, alarm and hot-water penalties. -/
theorem diagnose_found_score (system_id : String) (t : SystemData) :
    (diagnose_found system_id t).efficiency_score =
      some (100 - (if t.is_online then 0 else 30)
        - (if low_temp_diff t then 15 else 0)
        - (if t.active_alarms.isEmpty then 0 else 25)
        - (if hot_water_low t then 10 else if hot_water_high t then 5 else 0)) := by
  unfold diagnose_found
  by_cases h1 : t.is_online <;> by_cases h2 : low_temp_diff t <;>
    by_cases h3 : t.active_alarms.isEmpty <;>
    by_cases h4 : hot_water_low t <;> by_cases h5 : hot_water_high t <;>
      simp [h1, h2, h3, h4, h5] <;> norm_num

/-- The issues list built by `diagnose_found` in closed form, in check
order. -/
theorem diagnose_found_issues (system_id : String) (t : SystemData) :
    (diagnose_found system_id t).issues =
      (if t.is_online then [] else ["System is offline"])
      ++ (if low_temp_diff t then ["Low temperature differential"] else [])
      ++ (if t.active_alarms.isEmpty then [] else t.active_alarms)
      ++ (if hot_water_low t then ["Low hot water temperature"]
          else if hot_water_high t then ["High hot water temperature"] else []) := by
  unfold diagnose_found
  by_cases h1 : t.is_online <;> by_cases h2 : low_temp_diff t <;>
    by_cases h3 : t.active_alarms.isEmpty <;>
    by_cases h4 : hot_water_low t <;> by_cases h5 : hot_water_high t <;>
      simp [h1, h2, h3, h4, h5]

/-- The status reported by `diagnose_found` is exactly the threshold
map of its own final score. -/
theorem diagnose_found_status (system_id : String) (t : SystemData) :
    (diagnose_found system_id t).status =
      statusOfScore ((diagnose_found system_id t).efficiency_score.getD 0) := rfl

/-- The score of `diagnose_found` never exceeds the starting 100. -/
theorem diagnose_found_score_le (system_id : String) (t : SystemData) :
    (diagnose_found system_id t).efficiency_score.getD 0 ≤ 100 := by
  rw [diagnose_found_score]
  simp only [Option.getD_some]
  split_ifs <;> norm_num

/-- The score of `diagnose_found` stays at the starting 100 exactly
when no check appended an issue. -/
theorem diagnose_found_score_100_iff (system_id : String) (t : SystemData) :
    (diagnose_found system_id t).efficiency_score = some 100 ↔
      (diagnose_found system_id t).issues = [] := by
  rw [diagnose_found_score, diagnose_found_issues]
  by_cases h1 : t.is_online <;> by_cases h2 : low_temp_diff t <;>
    by_cases h3 : t.active_alarms.isEmpty <;>
    by_cases h4 : hot_water_low t <;> by_cases h5 : hot_water_high t <;>
      simp [h1, h2, h3, h4, h5] <;> norm_num
  all_goals (intro hcontra; exact h3 (by simp [hcontra]))

end Thermia

/-!
Claim theorems.
-/

open DataIntegration

/-- C1, counterexample: with the Live Gateway raising and the filter
set to an id outside the synthetic device set, `get_live_system_data`
returns the empty list, so the fallback result is not non-empty for
every optional system_id filter. -/
theorem claim_C1_counterexample :
    (get_live_system_data st_live env_err (some "absent-id")).1 = [] := rfl

/-- C1, amended: when the mock flag is off, the Thermia handle is
present and the live fetch raises, `get_live_system_data` returns the
synthetic list filtered by the requested id, upserts exactly that
filtered list into the store before returning, and the result is
non-empty whenever the filter is absent, empty, or names one of the two
synthetic devices. -/
theorem claim_C1_amended (st : DIState) (env : GatewayEnv)
    (system_id : Option String) (e : String)
    (hmode : st.use_mock_data = false) (hconn : st.thermia = true)
    (hfetch : env.fetch_heat_pumps = .error e) (hcache : env.cache_ok = true) :
    (get_live_system_data st env system_id).1 = filter_mock mock_system_data system_id ∧
    (get_live_system_data st env system_id).2.db_systems =
      (get_live_system_data st env system_id).1.foldl upsert_snapshot st.db_systems ∧
    ((system_id = none ∨ system_id = some "" ∨ system_id = some "mock-system-1" ∨
        system_id = some "mock-system-2") →
      (get_live_system_data st env system_id).1 ≠ []) := by
  have hbranch : get_live_system_data st env system_id =
      (filter_mock mock_system_data system_id,
        { st with db_systems := cache_system_data env.cache_ok st.db_systems (filter_mock mock_system_data system_id) }) := by
    unfold get_live_system_data
    rw [hmode, hconn, hfetch]
    rfl
  refine ⟨by rw [hbranch], ?_, ?_⟩
  · rw [hbranch]
    simp [cache_system_data, hcache]
  · intro hdisj
    rw [hbranch]
    rcases hdisj with rfl | rfl | rfl | rfl
    · exact (by decide : filter_mock mock_system_data none ≠ [])
    · exact (by decide : filter_mock mock_system_data (some "") ≠ [])
    · exact (by decide : filter_mock mock_system_data (some "mock-system-1") ≠ [])
    · exact (by decide : filter_mock mock_system_data (some "mock-system-2") ≠ [])

/-- C1, witness: the amended statement instantiated at a live-mode
state with a raising fetch and the filter `mock-system-1`. -/
theorem claim_C1_witness :
    st_live.use_mock_data = false ∧
    env_err.fetch_heat_pumps = .error "network unreachable" ∧
    (get_live_system_data st_live env_err (some "mock-system-1")).1 ≠ [] ∧
    (get_live_system_data st_live env_err (some "mock-system-1")).2.db_systems =
      (get_live_system_data st_live env_err (some "mock-system-1")).1.foldl
        upsert_snapshot st_live.db_systems := by
  refine ⟨rfl, rfl, ?_, ?_⟩
  · exact (claim_C1_amended st_live env_err (some "mock-system-1") "network unreachable"
      rfl rfl rfl rfl).2.2 (Or.inr (Or.inr (Or.inl rfl)))
  · exact (claim_C1_amended st_live env_err (some "mock-system-1") "network unreachable"
      rfl rfl rfl rfl).2.1

/-- C2: the historical store accumulates a second row with the same
(system_id, register_name, timestamp) key when the same point is cached
twice, because the `historical_data` table has no uniqueness constraint
on that key and its `INSERT OR REPLACE` never meets a conflict — the
claimed last-write-wins upsert does not happen. -/
theorem claim_C2_duplicate_key_rows :
    ((get_historical_data
        (get_historical_data st_mock env_ok "mock-system-1" "indoor_temperature" 5 5).2
        env_ok "mock-system-1" "indoor_temperature" 5 5).2.db_historical.filter
      (fun r => r.system_id == "mock-system-1" && r.register_name == "indoor_temperature" &&
        r.timestamp == 5)).length = 2 := rfl

/-- C3, counterexample: the Manager's `get_system_diagnosis` serves a
found system with a score that starts at 85 (a no-deduction snapshot
ends at 85, not 100) and a status taken from the issue count, not from
the 90/70/50 thresholds: a single setpoint-deviation issue yields
status FAIR at score 75, where the threshold map gives GOOD. -/
theorem claim_C3_counterexample :
    (get_system_diagnosis st_live env_dev "dev-1").1.toOption =
      some ⟨"dev-1", "FAIR", ["Temperature setpoint deviation"],
        ["Adjust temperature setpoint for better efficiency", "System operating normally"],
        75⟩ ∧
    Thermia.statusOfScore 75 = "GOOD" ∧
    (get_system_diagnosis st_live env_calm "calm-1").1.toOption =
      some ⟨"calm-1", "GOOD", [], ["System operating normally"], 85⟩ := by
  have hdev : (get_live_system_data st_live env_dev (some "dev-1")).1 = [dev_snapshot] := rfl
  have hcalm : (get_live_system_data st_live env_calm (some "calm-1")).1 = [calm_snapshot] := rfl
  have ha1 : alarms_present dev_snapshot = false := rfl
  have ha2 : alarms_present calm_snapshot = false := rfl
  have hs1 : statuses_present dev_snapshot = true := rfl
  have hs2 : statuses_present calm_snapshot = true := rfl
  have hc1 : compressor_running dev_snapshot = true := rfl
  have hc2 : compressor_running calm_snapshot = true := rfl
  have hd1 : setpoint_deviation dev_snapshot = true := by
    norm_num [setpoint_deviation, dev_snapshot, truthyQ, absQ]
  have hd2 : setpoint_deviation calm_snapshot = false := by
    norm_num [setpoint_deviation, calm_snapshot, truthyQ, absQ]
  refine ⟨?_, ?_, ?_⟩
  · simp only [get_system_diagnosis, hdev, Except.toOption, Option.some.injEq]
    simp [diagnose_snapshot, ha1, hs1, hc1, hd1, Diagnosis.mk.injEq]
    norm_num
  · norm_num [Thermia.statusOfScore]
  · simp only [get_system_diagnosis, hcalm, Except.toOption, Option.some.injEq]
    simp [diagnose_snapshot, ha2, hs2, hc2, hd2, Diagnosis.mk.injEq]
    norm_num

/-- C3, amended: the 100-start and the 90/70/50 threshold derivation
hold for the legacy `ThermiaHVACIntegration.diagnose_system`: for every
found system the result is the scored diagnosis whose status is exactly
the threshold map of its score, the score never exceeds the starting
100, and it stays at 100 exactly when no check appended an issue.  The
Manager's `get_system_diagnosis` instead starts at 85 and derives
status from the issue count (see the counterexample). -/
theorem claim_C3_amended (connected : Bool)
    (live : Except String (List Thermia.SystemData))
    (system_id : String) (t : Thermia.SystemData)
    (h : Thermia.get_system_by_id connected live system_id = some t) :
    Thermia.diagnose_system connected live system_id = Thermia.diagnose_found system_id t ∧
    (Thermia.diagnose_system connected live system_id).status =
      Thermia.statusOfScore
        ((Thermia.diagnose_system connected live system_id).efficiency_score.getD 0) ∧
    (Thermia.diagnose_system connected live system_id).efficiency_score.getD 0 ≤ 100 ∧
    ((Thermia.diagnose_system connected live system_id).efficiency_score = some 100 ↔
      (Thermia.diagnose_system connected live system_id).issues = []) := by
  have hd : Thermia.diagnose_system connected live system_id =
      Thermia.diagnose_found system_id t := by
    unfold Thermia.diagnose_system
    rw [h]
  rw [hd]
  exact ⟨rfl, Thermia.diagnose_found_status _ _, Thermia.diagnose_found_score_le _ _,
    Thermia.diagnose_found_score_100_iff _ _⟩

/-- C3, witness: the amended statement instantiated at the first
synthetic heat pump of the disconnected Thermia integration. -/
theorem claim_C3_witness :
    Thermia.get_system_by_id false (.ok []) "mock-001" = some Thermia.mock_pump_1 ∧
    (Thermia.diagnose_system false (.ok []) "mock-001").status =
      Thermia.statusOfScore
        ((Thermia.diagnose_system false (.ok []) "mock-001").efficiency_score.getD 0) :=
  ⟨rfl, (claim_C3_amended false (.ok []) "mock-001" Thermia.mock_pump_1 rfl).2.1⟩

/-- C4, counterexample: for an unknown system id the Manager's
`get_system_diagnosis` returns the bare error dictionary, not a result
carrying `status = ERROR` and `issues = ["System not found"]`. -/
theorem claim_C4_counterexample :
    (get_system_diagnosis st_mock env_ok "ghost").1 = .error "System not found" := rfl

/-- C4, amended: for an unknown system id the legacy
`ThermiaHVACIntegration.diagnose_system` returns the full sentinel
result with status ERROR and issues `["System not found"]`, while the
Manager's `get_system_diagnosis` returns the error dictionary
`\x7b"error": "System not found"\x7d`; neither raises (both are total). -/
theorem claim_C4_amended (connected : Bool)
    (live : Except String (List Thermia.SystemData)) (system_id : String)
    (h : Thermia.get_system_by_id connected live system_id = none)
    (st : DIState) (env : GatewayEnv)
    (h2 : (get_live_system_data st env (some system_id)).1 = []) :
    Thermia.diagnose_system connected live system_id =
      ⟨system_id, "ERROR", ["System not found"], ["Check system ID"], none⟩ ∧
    (get_system_diagnosis st env system_id).1 = .error "System not found" := by
  constructor
  · unfold Thermia.diagnose_system
    rw [h]
  · simp only [get_system_diagnosis, h2]

/-- C4, witness: the amended statement instantiated at the unknown id
"ghost" against both implementations. -/
theorem claim_C4_witness :
    Thermia.get_system_by_id false (.ok []) "ghost" = none ∧
    (get_live_system_data st_mock env_ok (some "ghost")).1 = [] ∧
    Thermia.diagnose_system false (.ok []) "ghost" =
      ⟨"ghost", "ERROR", ["System not found"], ["Check system ID"], none⟩ ∧
    (get_system_diagnosis st_mock env_ok "ghost").1 = .error "System not found" := by
  refine ⟨rfl, rfl, ?_, ?_⟩
  · exact (claim_C4_amended false (.ok []) "ghost" rfl st_mock env_ok rfl).1
  · exact (claim_C4_amended false (.ok []) "ghost" rfl st_mock env_ok rfl).2

/-- C5: adding one extra active alarm to a snapshot never increases the
diagnosis efficiency score, and an offline snapshot never scores higher
than the same snapshot online, in both the Manager scoring body
(`diagnose_snapshot`, which ignores `is_online`, giving equality) and
the Thermia scoring body (`diagnose_found`). -/
theorem claim_C5_diagnosis_monotone (system_id : String) (alarm : String)
    (s : HVACSystemData) (t : Thermia.SystemData) :
    (diagnose_snapshot system_id
        { s with active_alarms := s.active_alarms ++ [alarm] }).efficiency_score ≤
      (diagnose_snapshot system_id s).efficiency_score ∧
    (diagnose_snapshot system_id { s with is_online := false }).efficiency_score ≤
      (diagnose_snapshot system_id { s with is_online := true }).efficiency_score ∧
    (Thermia.diagnose_found system_id
        { t with active_alarms := t.active_alarms ++ [alarm] }).efficiency_score.getD 0 ≤
      (Thermia.diagnose_found system_id t).efficiency_score.getD 0 ∧
    (Thermia.diagnose_found system_id { t with is_online := false }).efficiency_score.getD 0 ≤
      (Thermia.diagnose_found system_id { t with is_online := true }).efficiency_score.getD 0 := by
  refine ⟨?_, ?_, ?_, ?_⟩
  · rw [diagnose_snapshot_score, diagnose_snapshot_score]
    have h1 : alarms_present { s with active_alarms := s.active_alarms ++ [alarm] } = true := by
      simp [alarms_present]
    have h2 : setpoint_deviation { s with active_alarms := s.active_alarms ++ [alarm] } =
        setpoint_deviation s := rfl
    have h3 : statuses_present { s with active_alarms := s.active_alarms ++ [alarm] } =
        statuses_present s := rfl
    have h4 : compressor_running { s with active_alarms := s.active_alarms ++ [alarm] } =
        compressor_running s := rfl
    rw [h1, h2, h3, h4]
    split_ifs <;> first | exact absurd rfl ‹¬true = true› | exact ‹False›.elim | norm_num
  · exact le_of_eq rfl
  · rw [Thermia.diagnose_found_score, Thermia.diagnose_found_score]
    simp only [Option.getD_some]
    have h1 : ({ t with active_alarms := t.active_alarms ++ [alarm]} :
        Thermia.SystemData).active_alarms.isEmpty = false := by
      simp
    have h2 : Thermia.low_temp_diff { t with active_alarms := t.active_alarms ++ [alarm] } =
        Thermia.low_temp_diff t := rfl
    have h3 : Thermia.hot_water_low { t with active_alarms := t.active_alarms ++ [alarm] } =
        Thermia.hot_water_low t := rfl
    have h4 : Thermia.hot_water_high { t with active_alarms := t.active_alarms ++ [alarm] } =
        Thermia.hot_water_high t := rfl
    rw [h1, h2, h3, h4]
    split_ifs <;> first | exact absurd rfl ‹¬true = true› | exact ‹False›.elim | norm_num
  · rw [Thermia.diagnose_found_score, Thermia.diagnose_found_score]
    simp only [Option.getD_some]
    have h2 : Thermia.low_temp_diff { t with is_online := false } =
        Thermia.low_temp_diff { t with is_online := true } := rfl
    have h3 : Thermia.hot_water_low { t with is_online := false } =
        Thermia.hot_water_low { t with is_online := true } := rfl
    have h4 : Thermia.hot_water_high { t with is_online := false } =
        Thermia.hot_water_high { t with is_online := true } := rfl
    have h5 : ({ t with is_online := false } : Thermia.SystemData).active_alarms.isEmpty =
        ({ t with is_online := true } : Thermia.SystemData).active_alarms.isEmpty := rfl
    rw [h2, h3, h4, h5]
    simp only [Bool.false_eq_true, if_false, if_true]
    split_ifs <;> first | exact absurd rfl ‹¬true = true› | exact ‹False›.elim | norm_num

/-- C6: the Manager's `get_optimization_suggestions` always returns a
non-empty list (not-found message, fired rules, or the single
operating-optimally message); when the fetch finds a system for which
no rule fires, the result is exactly `["System is operating optimally"]`;
and the legacy Thermia variant is also never empty (it always appends
its four general tips for a found system). -/
theorem claim_C6_suggestions_nonempty (st : DIState) (env : GatewayEnv)
    (system_id : String) :
    (get_optimization_suggestions st env system_id).1 ≠ [] ∧
    (∀ system rest, (get_live_system_data st env (some system_id)).1 = system :: rest →
      suggestions_for system = [] →
      (get_optimization_suggestions st env system_id).1 =
        ["System is operating optimally"]) ∧
    (∀ (connected : Bool) (live : Except String (List Thermia.SystemData)),
      Thermia.get_optimization_suggestions connected live system_id ≠ []) := by
  refine ⟨?_, ?_, ?_⟩
  · rcases hr : (get_live_system_data st env (some system_id)).1 with _ | ⟨system, rest⟩
    · simp [get_optimization_suggestions, hr]
    · by_cases hs : (suggestions_for system).isEmpty
      · simp [get_optimization_suggestions, hr, hs]
      · simp only [get_optimization_suggestions, hr, hs, Bool.false_eq_true, if_false]
        simpa [List.isEmpty_iff] using hs
  · intro system rest hr hcalm
    simp [get_optimization_suggestions, hr, hcalm]
  · intro connected live
    unfold Thermia.get_optimization_suggestions
    rcases h : Thermia.get_system_by_id connected live system_id with _ | system
    · simp
    · intro hcontra
      unfold Thermia.suggestions_found at hcontra
      rcases List.append_eq_nil.mp hcontra with ⟨-, htips⟩
      exact (by simp [Thermia.general_tips] : Thermia.general_tips ≠ []) htips

/-- C6, witness: a found live snapshot for which no rule fires yields
exactly the single operating-optimally message, and the list is
non-empty. -/
theorem claim_C6_witness :
    (get_live_system_data st_live env_calm (some "calm-1")).1 = [calm_snapshot] ∧
    suggestions_for calm_snapshot = [] ∧
    (get_optimization_suggestions st_live env_calm "calm-1").1 =
      ["System is operating optimally"] ∧
    (get_optimization_suggestions st_live env_calm "calm-1").1 ≠ [] := by
  have hcalm : suggestions_for calm_snapshot = [] := by
    norm_num [suggestions_for, calm_snapshot, truthyQ]
    decide
  refine ⟨rfl, hcalm, ?_, ?_⟩
  · exact (claim_C6_suggestions_nonempty st_live env_calm "calm-1").2.1
      calm_snapshot [] rfl hcalm
  · exact (claim_C6_suggestions_nonempty st_live env_calm "calm-1").1

/-- C7, counterexample: by Python truthiness the empty-string filter is
treated as absent on the synthetic path, so `get_live_system_data`
returns both synthetic devices (length 2), none of which has the empty
id — the claimed length bound and id match fail for X = "". -/
theorem claim_C7_counterexample :
    (get_live_system_data st_mock env_ok (some "")).1.length = 2 ∧
    ((get_live_system_data st_mock env_ok (some "")).1.all (fun s => s.id == "")) = false := by
  exact ⟨rfl, rfl⟩

/-- C7, amended: for every non-empty system_id X the returned list has
length at most 1 (given the data-model invariant that fetched device
ids are pairwise distinct), every returned snapshot has id X, and the
store receives exactly the filtered subset; for the empty string the
synthetic path applies no filter at all (see the counterexample). -/
theorem claim_C7_amended (st : DIState) (env : GatewayEnv) (x : String)
    (hx : x ≠ "")
    (hnd : ((fetch_pool st env).map (fun s => s.id)).Nodup) :
    (get_live_system_data st env (some x)).1.length ≤ 1 ∧
    (∀ s ∈ (get_live_system_data st env (some x)).1, s.id = x) ∧
    (get_live_system_data st env (some x)).2.db_systems =
      cache_system_data env.cache_ok st.db_systems
        (get_live_system_data st env (some x)).1 := by
  refine ⟨?_, ?_, get_live_system_data_db st env (some x)⟩
  · rw [get_live_system_data_fst_filter st env x hx]
    exact filter_id_length_le_one _ _ hnd
  · intro s hs
    rw [get_live_system_data_fst_filter st env x hx] at hs
    exact mem_filter_id _ _ _ hs

/-- C7, witness: the amended statement instantiated at the synthetic
mode state and the id of the first synthetic device. -/
theorem claim_C7_witness :
    ("mock-system-1" ≠ "") ∧
    (get_live_system_data st_mock env_ok (some "mock-system-1")).1.length ≤ 1 ∧
    (∀ s ∈ (get_live_system_data st_mock env_ok (some "mock-system-1")).1,
      s.id = "mock-system-1") := by
  have h := claim_C7_amended st_mock env_ok "mock-system-1" (by decide) (by decide)
  exact ⟨by decide, h.1, h.2.1⟩

/-- C8, counterexample: in synthetic mode `get_historical_data` for a
system_id outside the known device set still returns generated points
(two points for the hour range [0,1]), because the synthetic generator
never inspects the system_id. -/
theorem claim_C8_counterexample :
    (get_historical_data st_mock env_ok "absent-id" "indoor_temperature" 0 1).1.length = 2 :=
  rfl

/-- C8, amended: in live mode with a successful fetch, an unknown
system_id yields the empty list and leaves the state untouched; in
synthetic mode, and on a raising live fetch, the generator produces one
point per hour of the requested range for any system_id whatsoever, so
the result is non-empty whenever the range is non-trivial even for
unknown ids. -/
theorem claim_C8_amended (system_id register_name : String) (a b : ℕ)
    (dbs : List HVACSystemData) (dbh : List HistRow)
    (fh : Except String (List HistPoint)) (co ho : Bool) :
    (∀ pumps : List HVACSystemData, (∀ hp ∈ pumps, hp.id ≠ system_id) →
      (get_historical_data ⟨false, true, dbs, dbh⟩ ⟨.ok pumps, fh, co, ho⟩
        system_id register_name a b).1 = [] ∧
      (get_historical_data ⟨false, true, dbs, dbh⟩ ⟨.ok pumps, fh, co, ho⟩
        system_id register_name a b).2 = ⟨false, true, dbs, dbh⟩) ∧
    (∀ (f : Except String (List HVACSystemData)) (um th : Bool),
      (um = true ∨ th = false) → a ≤ b →
      (get_historical_data ⟨um, th, dbs, dbh⟩ ⟨f, fh, co, ho⟩
        system_id register_name a b).1.length = b - a + 1 ∧
      (get_historical_data ⟨um, th, dbs, dbh⟩ ⟨f, fh, co, ho⟩
        system_id register_name a b).1 ≠ []) ∧
    (∀ e : String, a ≤ b →
      (get_historical_data ⟨false, true, dbs, dbh⟩ ⟨.error e, fh, co, ho⟩
        system_id register_name a b).1 ≠ []) := by
  refine ⟨?_, ?_, ?_⟩
  · intro pumps h4
    have hany : pumps.any (fun hp => hp.id == system_id) = false := by
      rw [List.any_eq_false]
      intro hp hhp
      simpa using h4 hp hhp
    refine ⟨?_, ?_⟩ <;> simp [get_historical_data, hany]
  · intro f um th hm hab
    have hcond : (um || !th) = true := by
      rcases hm with rfl | rfl <;> simp
    have hlen : (get_historical_data ⟨um, th, dbs, dbh⟩ ⟨f, fh, co, ho⟩
        system_id register_name a b).1.length = b + 1 - a := by
      simp [get_historical_data, hcond, get_mock_historical_data]
    refine ⟨hlen.trans (by omega), ?_⟩
    intro hnil
    rw [hnil] at hlen
    simp at hlen
    omega
  · intro e hab
    have hlen : (get_historical_data ⟨false, true, dbs, dbh⟩ ⟨.error e, fh, co, ho⟩
        system_id register_name a b).1.length = b + 1 - a := by
      simp [get_historical_data, get_mock_historical_data]
    intro hnil
    rw [hnil] at hlen
    simp at hlen
    omega

/-- C8, witness: the amended statement instantiated at an unknown id in
a live mode fetching no devices (empty result) and in synthetic mode
over the hour range [0,1] (two generated points). -/
theorem claim_C8_witness :
    (get_historical_data st_live env_ok "ghost" "indoor_temperature" 0 1).1 = [] ∧
    (get_historical_data st_mock env_ok "ghost" "indoor_temperature" 0 1).1.length = 1 - 0 + 1 := by
  refine ⟨((claim_C8_amended "ghost" "indoor_temperature" 0 1 [] []
    (.ok []) true true).1 [] (by simp)).1, ?_⟩
  exact ((claim_C8_amended "ghost" "indoor_temperature" 0 1 [] []
    (.ok []) true true).2.1 (.ok []) true false (Or.inl rfl) (by norm_num)).1

/-- C9: the list served by `get_live_system_data` is identical whether
or not the snapshot cache write succeeds (and a failed write leaves the
snapshot table untouched), and likewise for `get_historical_data` and
the historical cache write: a storage failure during the cache side
effect never changes what the caller receives. -/
theorem claim_C9_store_failure_not_propagated (st : DIState)
    (f : Except String (List HVACSystemData)) (fh : Except String (List HistPoint))
    (co co2 ho ho2 : Bool) (system_id : Option String)
    (sid2 register_name : String) (a b : ℕ) :
    (get_live_system_data st ⟨f, fh, co, ho⟩ system_id).1 =
      (get_live_system_data st ⟨f, fh, co2, ho2⟩ system_id).1 ∧
    (get_live_system_data st ⟨f, fh, false, ho⟩ system_id).2.db_systems = st.db_systems ∧
    (get_historical_data st ⟨f, fh, co, ho⟩ sid2 register_name a b).1 =
      (get_historical_data st ⟨f, fh, co2, ho2⟩ sid2 register_name a b).1 ∧
    (get_historical_data st ⟨f, fh, co, false⟩ sid2 register_name a b).2.db_historical =
      st.db_historical := by
  refine ⟨?_, ?_, ?_, ?_⟩
  · unfold get_live_system_data
    cases hm : (st.use_mock_data || !st.thermia) <;> cases f <;> simp [hm]
  · unfold get_live_system_data
    cases hm : (st.use_mock_data || !st.thermia) <;> cases f <;>
      simp [hm, cache_system_data]
  · unfold get_historical_data
    cases hm : (st.use_mock_data || !st.thermia) <;> cases f <;> cases fh <;>
      simp [hm] <;> split_ifs <;> simp
  · unfold get_historical_data
    cases hm : (st.use_mock_data || !st.thermia) <;> cases f <;> cases fh <;>
      simp [hm, cache_historical_data] <;> split_ifs <;> simp [cache_historical_data]

/-- C10: `get_system_diagnosis` and `get_optimization_suggestions`
leave the Manager state exactly as the underlying fresh
`get_live_system_data` fetch leaves it — including its cache side
effect: with a succeeding cache write, every fetched snapshot (under
the data-model invariant of pairwise distinct ids) is present in the
snapshot table afterwards.  `get_cached_system_data`, by contrast, is a
pure read with no state output. -/
theorem claim_C10_derived_reads_effects (st : DIState) (env : GatewayEnv)
    (system_id : String) :
    (get_system_diagnosis st env system_id).2 =
      (get_live_system_data st env (some system_id)).2 ∧
    (get_optimization_suggestions st env system_id).2 =
      (get_live_system_data st env (some system_id)).2 ∧
    (env.cache_ok = true →
      ((get_live_system_data st env (some system_id)).1.map (fun s => s.id)).Nodup →
      ∀ s ∈ (get_live_system_data st env (some system_id)).1,
        s ∈ (get_live_system_data st env (some system_id)).2.db_systems) := by
  refine ⟨rfl, rfl, ?_⟩
  intro hc hnd s hs
  rw [get_live_system_data_db, hc]
  simp only [cache_system_data, if_true]
  exact mem_foldl_upsert_self _ _ _ hs hnd

/-- C10, witness: diagnosing the first synthetic device on an empty
store leaves that device's snapshot in the store. -/
theorem claim_C10_witness :
    env_ok.cache_ok = true ∧
    (get_live_system_data st_mock env_ok (some "mock-system-1")).1 = [mock_system_1] ∧
    mock_system_1 ∈ (get_system_diagnosis st_mock env_ok "mock-system-1").2.db_systems := by
  refine ⟨rfl, rfl, ?_⟩
  have h := claim_C10_derived_reads_effects st_mock env_ok "mock-system-1"
  rw [h.1]
  exact h.2.2 rfl (by decide) mock_system_1 (List.mem_singleton.mpr rfl)
